import Mathlib

/-!
Verification development for the covid-19 scrapers repository: a shallow
embedding of the CSV row-ingestion engine in cvpy/csvloader.py
(class CSVLoader) and proofs about its specified behaviour.

Modelling conventions:
  - Rows are ordered association lists from column name to Option String;
    none models both a missing value and an empty-after-trim value that
    the normalizer turns into Python None.
  - External library calls (dateparser.parse, json.loads, float) are
    taken as oracle function parameters, since those libraries are not
    part of this repository.
  - Exceptional control flow is explicit: per-row skip (continue with a
    warning), loop break, and uncaught exceptions that abort the load.
-/

/-! ### Python string primitives used by the loader -/

/-- Model of Python str.lower: lower-case every character. -/
def pyLower (s : String) : String := String.mk (s.data.map Char.toLower)

/-- Model of Python str.upper: upper-case every character. -/
def pyUpper (s : String) : String := String.mk (s.data.map Char.toUpper)

/-- Model of Python str.strip: drop whitespace from both ends. -/
def pyStrip (s : String) : String :=
  String.mk (((s.data.dropWhile Char.isWhitespace).reverse.dropWhile
    Char.isWhitespace).reverse)

/-- Helper for pySplitWs: split a character list on whitespace runs. -/
def pySplitWsAux : List Char → List Char → List (List Char)
  | [], [] => []
  | [], acc => [acc.reverse]
  | c :: cs, acc =>
    if c.isWhitespace then
      if acc.isEmpty then pySplitWsAux cs []
      else acc.reverse :: pySplitWsAux cs []
    else pySplitWsAux cs (c :: acc)

/-- Model of Python str.split with no arguments: split on whitespace runs,
dropping empty pieces. -/
def pySplitWs (s : String) : List String := (pySplitWsAux s.data []).map String.mk

/-- Python truthiness of a string: false exactly for the empty string. -/
def pyTruthy (s : String) : Bool := !(s == "")

/-- Model of Python str.startswith (also used for slicing tests). -/
def pyStartsWith (s pre : String) : Bool := pre.data.isPrefixOf s.data

/-- Model of Python slicing s[n:]. -/
def pyDrop (s : String) (n : Nat) : String := String.mk (s.data.drop n)

/-- Model of Python sep.join(parts). -/
def strIntercalate (sep : String) : List String → String
  | [] => ""
  | [s] => s
  | s :: rest => s ++ sep ++ strIntercalate sep rest

/-- Substring test on character lists (Python in operator on str). -/
def containsSub (s pat : List Char) : Bool :=
  pat.isPrefixOf s ||
    (match s with
     | [] => false
     | _ :: t => containsSub t pat)

/-! ### Rows: ordered dictionaries from column names to optional values -/

/-- A CSV row after normalization: ordered association list; a value of
none models Python None (empty or missing). -/
abbrev Row := List (String × Option String)

/-- Look up a key in a row; an absent key also yields none. -/
def Row.get (r : Row) (k : String) : Option String :=
  match r.find? (fun kv => kv.1 == k) with
  | some kv => kv.2
  | none => none

/-- Python membership test: k in row. -/
def Row.hasKey (r : Row) (k : String) : Bool := r.any (fun kv => kv.1 == k)

/-- Python dict assignment row[k] = v: overwrite in place or append. -/
def Row.set (r : Row) (k : String) (v : Option String) : Row :=
  if r.hasKey k then r.map (fun kv => if kv.1 == k then (k, v) else kv)
  else r ++ [(k, v)]

/-- Python del row[k]. -/
def Row.erase (r : Row) (k : String) : Row := r.filter (fun kv => kv.1 != k)

/-- Python row.keys() in order. -/
def Row.keys (r : Row) : List String := r.map (fun kv => kv.1)

/-- Python truthiness of row[k]: a present, non-empty value. -/
def Row.truthy (r : Row) (k : String) : Bool :=
  match r.get k with
  | some s => pyTruthy s
  | none => false

/-! ### Row normalization (csvloader.py lines 232-238 and 260-265) -/

/-- Normalize one raw cell value: strip, and turn empty into None. -/
def normVal (v : String) : Option String :=
  if 0 < (pyStrip v).length then some (pyStrip v) else none

/-- Lines 232-238: lower-case keys, strip values, None for empties.
Later assignments overwrite earlier ones as in a Python dict. -/
def normalizeRow (raw : List (String × String)) : Row :=
  raw.foldl (fun acc kv => acc.set (pyLower kv.1) (normVal kv.2)) []

/-- Lines 260-265: rename the legacy columns other value and quarantine. -/
def applyRenames (row : Row) : Row :=
  let row1 :=
    if row.hasKey "other value" then
      (row.set "other_value" (row.get "other value")).erase "other value"
    else row
  if row1.hasKey "quarantine" then
    (row1.set "quarantined" (row1.get "quarantine")).erase "quarantine"
  else row1

/-- The fixed list of simple attributes (csvloader.py lines 15-19). -/
def simple_attrs : List String :=
  ["cases", "deaths", "presumptive", "recovered", "tested", "hospitalized",
   "negative", "severe", "monitored", "no_longer_monitored", "pending",
   "active", "inconclusive", "quarantined"]

/-! ### Attribute name synthesis (CSVLoader.mk_attr_name, lines 72-107) -/

/-- Resolve one name part: a part starting with = is a literal (stripped
and lowered); otherwise it is a column reference, resolved to the value
lowered with whitespace runs collapsed. Returns none where Python would
raise on a None value. -/
def resolvePart (row : Row) (part : String) : Option String :=
  if pyStartsWith part "=" then some (pyLower (pyStrip (pyDrop part 1)))
  else (row.get part).map
    (fun v => strIntercalate " " (pySplitWs (pyLower (pyStrip v))))

/-- CSVLoader.mk_attr_name: assemble an attribute name from parts; with
check_prc, a percent value equal to yes (case-insensitively) appends the
literal percent segment, any other non-empty value sets the warning flag.
Returns (name, warning-logged). -/
def mk_attr_name (row : Row) (arg_parts : List String) (check_prc : Bool) :
    Option (String × Bool) := do
  let parts ← arg_parts.mapM (resolvePart row)
  let step :=
    if check_prc && row.truthy "percent" then
      match row.get "percent" with
      | some p =>
        if pyLower (pyStrip p) == "yes" then (parts ++ ["percent"], false)
        else (parts, true)
      | none => (parts, false)
    else (parts, false)
  pure (strIntercalate "_" step.1, step.2)

/-- CSVLoader.same_ign_none (lines 109-125): element-wise comparison
ignoring positions where either side is None. -/
def same_ign_none (l1 l2 : List (Option String)) : Bool :=
  (List.zip l1 l2).all (fun ab =>
    match ab.1, ab.2 with
    | some a, some b => a == b
    | _, _ => true)

/-! ### Dates and valid-time resolution (lines 340-387) -/

/-- A calendar date as produced by datetime.date. -/
structure PyDate where
  year : Int
  month : Int
  day : Int
deriving DecidableEq

/-- A parsed timestamp as produced by dateparser.parse; tod distinguishes
timestamps sharing a date. -/
structure PyDateTime where
  dateOf : PyDate
  tod : Nat
deriving DecidableEq

/-- Gregorian leap-year rule, as used by datetime. -/
def isLeapYear (y : Int) : Bool := y % 4 == 0 && (y % 100 != 0 || y % 400 == 0)

/-- Days in a month, as used by datetime. -/
def daysInMonth (y m : Int) : Int :=
  if m == 2 then (if isLeapYear y then 29 else 28)
  else if m == 4 || m == 6 || m == 9 || m == 11 then 30
  else 31

/-- Model of datetime.date(y, m, d): none where Python raises ValueError. -/
def datetime_date (y m d : Int) : Option PyDate :=
  if 1 ≤ y && y ≤ 9999 && 1 ≤ m && m ≤ 12 && 1 ≤ d && d ≤ daysInMonth y m then
    some (PyDate.mk y m d)
  else none

/-- A decoded JSON object restricted to integer fields, which is all the
loader reads from the updated column. -/
abbrev JsonObj := List (String × Int)

/-- Key lookup in a decoded JSON object; none models a KeyError. -/
def JsonObj.get (j : JsonObj) (k : String) : Option Int :=
  (j.find? (fun kv => kv.1 == k)).map (fun kv => kv.2)

/-- The single-quote character, written by code point to keep source clean. -/
def singleQuoteStr : String := String.mk [Char.ofNat 39]

/-- Line 365: updated.replace of every single-quote character with a
double quote before json.loads (the pattern is a single character). -/
def replaceSingleQuotes (s : String) : String :=
  String.mk (s.data.map (fun c => if c == Char.ofNat 39 then Char.ofNat 34
    else c))

/-- Outcome of resolving the valid time of one row: a date, a skip of the
row with a warning, or an uncaught exception aborting the load. -/
inductive TimeOutcome where
  | ok (d : PyDate)
  | skipRow
  | abortError
deriving DecidableEq

/-- Lines 352-387: resolve the valid (observation) date of a row.
jsonLoads models json.loads (none = JSONDecodeError, which is caught);
dateparse models dateparser.parse (none = unparseable, caught).
A decoded object missing year, month or day raises an uncaught KeyError,
and datetime.date on out-of-range fields raises an uncaught ValueError:
both are abortError. -/
def resolveValidTime (jsonLoads : String → Option JsonObj)
    (dateparse : String → Option PyDateTime)
    (updated : Option String) (prevValid : Option PyDate)
    (access : PyDateTime) : TimeOutcome :=
  match updated with
  | none =>
    match prevValid with
    | some d => TimeOutcome.ok d
    | none => TimeOutcome.ok access.dateOf
  | some u =>
    if u == "" then TimeOutcome.ok access.dateOf
    else if pyStartsWith (pyStrip u) "\x7b" then
      match jsonLoads (replaceSingleQuotes u) with
      | none => TimeOutcome.skipRow
      | some jd =>
        match jd.get "year", jd.get "month", jd.get "day" with
        | some y, some m, some d =>
          match datetime_date y m d with
          | some dt => TimeOutcome.ok dt
          | none => TimeOutcome.abortError
        | _, _, _ => TimeOutcome.abortError
    else
      match dateparse u with
      | none => TimeOutcome.skipRow
      | some ts => TimeOutcome.ok ts.dateOf

/-! ### Group classification and the group-row counter (lines 414-487) -/

/-- The seven demographic grouping states. noGroup models Python None. -/
inductive GroupType where
  | noGroup
  | age
  | age_sex
  | age_other
  | sex
  | sex_other
  | other_hospital
deriving DecidableEq

/-- The sentinel value in the other column that marks a hospital group. -/
def hospitalSentinel : String := "HospitalName"

/-- The identity tuple of a row: scrape, geounit, valid time (line 469). -/
structure IdVals where
  scrape_id : Nat
  geounit_id : String
  valid_time : PyDate
deriving DecidableEq

/-- Lines 448-458: country, state, county are uppercased and joined by a
caret when truthy; a truthy region is appended verbatim after a dollar
sign; in the hospital group the facility name is appended and resolution
is forced elsewhere to hospital. -/
def mkGeounitId (row : Row) (group_type : GroupType)
    (group_hospital_name : Option String) : String :=
  let base := strIntercalate "^"
    (((["country", "state", "county"]).filter (fun c => row.truthy c)).map
      (fun c => pyUpper ((row.get c).getD "")))
  let base1 :=
    if row.truthy "region" then base ++ "$" ++ ((row.get "region").getD "")
    else base
  if group_type == GroupType.other_hospital then
    base1 ++ "$" ++ (group_hospital_name.getD "")
  else base1

/-- The cross-row state carried by the classifier, counter and
consistency checker (file-level variables, lines 193-198). -/
structure GState where
  group_type : GroupType
  group_hospital_name : Option String
  group_row : Nat
  id_vals_prev : Option IdVals
  simpl_prev : Option (IdVals × List (Option String))
  row_prev : Option Row
deriving DecidableEq

/-- Result of the classification and counter step for one row: either the
row is skipped by a continue (hospital header rows), or it proceeds with
the computed identity tuple and simple-value vector. -/
inductive StepOut where
  | skipped (st : GState)
  | processed (st : GState) (iv : IdVals) (simpl : List (Option String))
deriving DecidableEq

/-- Lines 468-487 continued: compute the identity tuple and simple-value
vector, apply the first-row assignment of the previous-row snapshots
(lines 471-474), and update the group-row counter (lines 476-487). -/
def groupCounterCont (row_no : Nat) (st : GState) (row : Row)
    (scrape_id : Nat) (valid_time : PyDate) (g : GroupType) : StepOut :=
  let geo := mkGeounitId row g st.group_hospital_name
  let iv : IdVals := IdVals.mk scrape_id geo valid_time
  let simpl := simple_attrs.map (fun a => row.get a)
  let st1 :=
    if row_no == 0 then
      { st with id_vals_prev := some iv, simpl_prev := some (iv, simpl),
                row_prev := some row }
    else st
  let gr :=
    if some iv != st1.id_vals_prev || g == GroupType.noGroup then 0
    else st1.group_row + 1
  StepOut.processed { st1 with group_type := g, group_row := gr } iv simpl

/-- Lines 414-487: the classification state machine. While in the
hospital group a row whose other column equals the sentinel is a facility
header: it records the facility name, zeroes the counter and is skipped
(continue). Otherwise classification follows the elif chain on age_range,
sex and other, entering the hospital group on the sentinel. -/
def groupCounterStep (row_no : Nat) (st : GState) (row : Row)
    (scrape_id : Nat) (valid_time : PyDate) : StepOut :=
  if st.group_type == GroupType.other_hospital then
    if row.get "other" == some hospitalSentinel then
      StepOut.skipped { st with group_hospital_name := row.get "other_value",
                                group_row := 0 }
    else
      groupCounterCont row_no st row scrape_id valid_time
        GroupType.other_hospital
  else if row.truthy "age_range" then
    groupCounterCont row_no st row scrape_id valid_time
      (if row.truthy "sex" then GroupType.age_sex
       else if row.truthy "other" then GroupType.age_other else GroupType.age)
  else if row.truthy "sex" then
    groupCounterCont row_no st row scrape_id valid_time
      (if row.truthy "other" then GroupType.sex_other else GroupType.sex)
  else if row.truthy "other" && (row.get "other" == some hospitalSentinel) then
    StepOut.skipped { st with group_type := GroupType.other_hospital,
                              group_hospital_name := row.get "other_value",
                              group_row := 0 }
  else
    groupCounterCont row_no st row scrape_id valid_time GroupType.noGroup

/-- The carried state after a classification step. -/
def stepState : StepOut → GState
  | StepOut.skipped st => st
  | StepOut.processed st _ _ => st

/-- The group selected by a classification step. -/
def stepGroup (o : StepOut) : GroupType := (stepState o).group_type

/-- A trace of classification steps over a list of rows, each row paired
with its row number, scrape id and valid time. -/
def gLoop (st : GState) : List (Nat × Row × Nat × PyDate) → GState
  | [] => st
  | x :: rest =>
    gLoop (stepState (groupCounterStep x.1 st x.2.1 x.2.2.1 x.2.2.2)) rest

/-! ### Fact extraction (lines 489-796) -/

/-- One fact-store row (staging.stav insert, CSVLoader.store_stav). -/
structure StavRec where
  scrape_id : Nat
  geounit_id : String
  vtime : PyDate
  attr : String
  val : Option String
  csv_row : Nat
  csv_col : String
deriving DecidableEq

/-- The persistence effects of processing one row: attribute-registry
creations (dataset, attribute key), fact rows, and warning count. -/
structure Facts where
  creates : List (Option String × String)
  stavs : List StavRec
  warns : Nat
deriving DecidableEq

/-- Concatenation of effects in program order. -/
def Facts.app (a b : Facts) : Facts :=
  Facts.mk (a.creates ++ b.creates) (a.stavs ++ b.stavs) (a.warns + b.warns)

/-- No effects. -/
def noFacts : Facts := Facts.mk [] [] 0

/-- The per-row context shared by all extraction branches. isFloat models
the Python float() probe on other_value. -/
structure FactCtx where
  isFloat : String → Bool
  row : Row
  row_prev : Option Row
  group_row : Nat
  scrape_id : Nat
  geounit_id : String
  valid_time : PyDate
  dataset : Option String
  row_no : Nat
  simpl : IdVals × List (Option String)
  simpl_prev : Option (IdVals × List (Option String))

/-- A single store_stav call in context. -/
def FactCtx.stav (c : FactCtx) (attr : String) (val : Option String)
    (col : String) : StavRec :=
  StavRec.mk c.scrape_id c.geounit_id c.valid_time attr val c.row_no col

/-- One create_attribute plus store_stav pair: synthesize the name from
parts, register it, and store the value under storeAttr when given (the
raw column name) or under the synthesized name otherwise. -/
def oneFact (c : FactCtx) (parts : List String) (prc : Bool)
    (storeAttr : Option String) (val : Option String) (col : String) :
    Option Facts :=
  Option.bind (mk_attr_name c.row parts prc) (fun nw =>
    some (Facts.mk [(c.dataset, nw.1)] [c.stav (storeAttr.getD nw.1) val col]
      (if nw.2 then 1 else 0)))

/-- The keys of a row with truthy values, in order (the comprehension
for a in row.keys() if row[a]). -/
def truthyKeys (r : Row) : List String := r.keys.filter (fun a => r.truthy a)

/-- The simple attributes with truthy values in a row. -/
def truthySimple (r : Row) : List String :=
  simple_attrs.filter (fun a => r.truthy a)

/-- Lines 492-501: collect values from age_-prefixed columns (all age
subgroups); the synthesized name is age_(range)_(suffix). -/
def agePrefixLoop (c : FactCtx) : List String → Option Facts
  | [] => some noFacts
  | a :: rest =>
    Option.bind
      (if pyStartsWith a "age_" && a != "age_range" then
        oneFact c ["=age", "age_range", "=" ++ pyDrop a 4] false none
          (c.row.get a) a
      else some noFacts)
      (fun x => Option.bind (agePrefixLoop c rest)
        (fun r => some (x.app r)))

/-- Lines 503-519 and 647-661 (identical logic in groups age and sex):
on the first group row, simple attributes are registered under the
synthesized name but stored under the raw column name; on later rows a
changed value only logs a warning. -/
def simpleAttrsLoop (c : FactCtx) : List String → Option Facts
  | [] => some noFacts
  | a :: rest =>
    Option.bind
      (if c.group_row == 0 then
        oneFact c ["=" ++ a] true (some a) (c.row.get a) a
      else
        match c.row_prev with
        | some rp =>
          some (Facts.mk [] [] (if c.row.get a != rp.get a then 1 else 0))
        | none => none)
      (fun x => Option.bind (simpleAttrsLoop c rest)
        (fun r => some (x.app r)))

/-- Lines 523-559 (group age.sex): sex_-prefixed columns are stored under
age_(range)_sex_(suffix); simple attributes on the first group row are
registered under age_(range)_(attr) but stored under the raw name; later
rows warn (three log lines) on changed values. -/
def ageSexKeyLoop (c : FactCtx) : List String → Option Facts
  | [] => some noFacts
  | a :: rest =>
    Option.bind
      (if pyStartsWith a "sex_" then
        oneFact c ["=age", "age_range", "sex", "=" ++ pyDrop a 4] false none
          (c.row.get a) a
      else if a ∈ simple_attrs then
        if c.group_row == 0 then
          oneFact c ["=age", "age_range", "=" ++ a] true (some a)
            (c.row.get a) a
        else
          match c.row_prev with
          | some rp =>
            some (Facts.mk [] [] (if c.row.get a != rp.get a then 3 else 0))
          | none => none
      else some noFacts)
      (fun x => Option.bind (ageSexKeyLoop c rest)
        (fun r => some (x.app r)))

/-- Lines 637-645 (groups sex and sex.other): sex_-prefixed columns. -/
def sexPrefixLoop (c : FactCtx) : List String → Option Facts
  | [] => some noFacts
  | a :: rest =>
    Option.bind
      (if pyStartsWith a "sex_" then
        oneFact c ["=sex", "sex", "=" ++ pyDrop a 4] false none (c.row.get a) a
      else some noFacts)
      (fun x => Option.bind (sexPrefixLoop c rest)
        (fun r => some (x.app r)))

/-- A loop over simple attributes storing each value under the name
synthesized by mkParts (used by the various modifier branches). -/
def modifierLoop (c : FactCtx) (mkParts : String → List String) :
    List String → Option Facts
  | [] => some noFacts
  | a :: rest =>
    Option.bind (oneFact c (mkParts a) true none (c.row.get a) a)
      (fun x => Option.bind (modifierLoop c mkParts rest)
        (fun r => some (x.app r)))

/-- The consistency comparison of the simple-value vectors (identity
tuple positions are never None and are compared directly); none models
the crash when no previous vector exists. -/
def simplSame (c : FactCtx) : Option Bool :=
  match c.simpl_prev with
  | some sp => some ((c.simpl.1 == sp.1) && same_ign_none c.simpl.2 sp.2)
  | none => none

/-- Lines 489-796: the extraction switch over the row group. none models
an uncaught exception aborting the load. -/
def extractFacts (c : FactCtx) (g : GroupType) : Option Facts :=
  match g with
  | GroupType.age =>
    Option.bind (agePrefixLoop c (truthyKeys c.row)) (fun f1 =>
      Option.bind (simpleAttrsLoop c (truthySimple c.row)) (fun f2 =>
        some (f1.app f2)))
  | GroupType.age_sex =>
    Option.bind (agePrefixLoop c (truthyKeys c.row)) (fun f1 =>
      Option.bind (ageSexKeyLoop c (truthyKeys c.row)) (fun f2 =>
        some (f1.app f2)))
  | GroupType.age_other =>
    Option.bind (agePrefixLoop c (truthyKeys c.row)) (fun f1 =>
      Option.bind
        (if c.row.truthy "other_value" then
          if c.isFloat ((c.row.get "other_value").getD "") then
            if c.group_row == 0 then
              Option.bind
                (modifierLoop c (fun a => ["=" ++ a]) (truthySimple c.row))
                (fun fa =>
                  Option.bind
                    (oneFact c ["=age", "age_range", "other"] false none
                      (c.row.get "other_value") "other_value")
                    (fun fb => some (fa.app fb)))
            else
              Option.bind (simplSame c) (fun sm =>
                some (Facts.mk [] [] (if !sm then 3 else 0)))
          else
            modifierLoop c
              (fun a =>
                ["=age", "age_range", "other", "other_value", "=" ++ a])
              (truthySimple c.row)
        else
          modifierLoop c (fun a => ["=age", "age_range", "other", "=" ++ a])
            (truthySimple c.row))
        (fun f2 => some (f1.app f2)))
  | GroupType.sex =>
    Option.bind (sexPrefixLoop c (truthyKeys c.row)) (fun f1 =>
      Option.bind (simpleAttrsLoop c (truthySimple c.row)) (fun f2 =>
        some (f1.app f2)))
  | GroupType.sex_other =>
    Option.bind (sexPrefixLoop c (truthyKeys c.row)) (fun f1 =>
      Option.bind
        (if c.row.truthy "other_value" then
          if c.isFloat ((c.row.get "other_value").getD "") then
            if c.group_row == 0 then
              Option.bind
                (modifierLoop c (fun a => ["=" ++ a]) (truthySimple c.row))
                (fun fa =>
                  Option.bind
                    (oneFact c ["=sex", "sex", "other"] false none
                      (c.row.get "other_value") "other_value")
                    (fun fb => some (fa.app fb)))
            else
              Option.bind (simplSame c) (fun sm =>
                some (Facts.mk [] [] (if !sm then 3 else 0)))
          else
            -- lines 702-713: the except branch reuses the loop variable
            -- of the sex_-prefix loop, i.e. the last truthy key of the row
            match (truthyKeys c.row).getLast? with
            | some la =>
              oneFact c ["=sex", "sex", "other", "other_value"] true none
                (c.row.get la) la
            | none => none
        else
          modifierLoop c (fun a => ["=sex", "sex", "other", "=" ++ a])
            (truthySimple c.row))
        (fun f2 => some (f1.app f2)))
  | GroupType.other_hospital =>
    Option.bind
      (if c.row.truthy "other_value" then
        oneFact c ["other"] false none (c.row.get "other_value") "other_value"
      else some noFacts)
      (fun f1 =>
        Option.bind
          (if 0 < c.group_row then
            Option.bind (simplSame c) (fun sm =>
              some (Facts.mk [] [] (if !sm then 3 else 0)))
          else some noFacts)
          (fun f2 => some (f1.app f2)))
  | GroupType.noGroup =>
    if c.row.truthy "other" && c.row.truthy "other_value" then
      if c.isFloat ((c.row.get "other_value").getD "") then
        oneFact c ["other"] true none (c.row.get "other_value") "other"
      else
        modifierLoop c (fun a => ["other", "other_value", "=" ++ a])
          (truthySimple c.row)
    else if c.row.truthy "other" then
      some (Facts.mk [] [] 1)
    else
      modifierLoop c (fun a => ["=" ++ a]) (truthySimple c.row)

/-! ### The database model and persistence helpers -/

/-- One staging.scrapes row. -/
structure Scrape where
  scrape_id : Nat
  provider_id : String
  uri : String
  dataset_id : Option String
  scraped_ts : PyDateTime
  doc : Option String
  csv_file : Option String
  csv_row : Nat
deriving DecidableEq

/-- One staging.attributes row. -/
structure DBAttr where
  dataset_id : Option String
  attr : String
  meta : Option String
deriving DecidableEq

/-- The five persistence stores plus a scrape-id allocator. -/
structure DB where
  providers : List String
  vendors : List String
  datasets : List (String × String)
  scrapes : List Scrape
  geounits : List (String × Option String)
  attributes : List DBAttr
  stav : List StavRec
  next_scrape_id : Nat
deriving DecidableEq

/-- True when the name contains the substring percent (line 51). -/
def containsPercent (s : String) : Bool := containsSub s.data "percent".data

/-- CSVLoader.create_attribute (lines 40-70) with ignore_duplicate: the
percent marker is added to the metadata, and a duplicate key is rolled
back leaving the store unchanged. -/
def create_attribute (db : DB) (dataset : Option String) (attr : String) :
    DB :=
  let meta := if containsPercent attr then some "%" else none
  if db.attributes.any (fun a => a.dataset_id == dataset && a.attr == attr)
  then db
  else { db with attributes := db.attributes ++ [DBAttr.mk dataset attr meta] }

/-- CSVLoader.store_stav (lines 135-170): append one fact row. -/
def store_stav (db : DB) (s : StavRec) : DB :=
  { db with stav := db.stav ++ [s] }

/-- Apply the collected effects of one row to the database. -/
def applyFacts (db : DB) (f : Facts) : DB :=
  let db1 := f.creates.foldl (fun d cr => create_attribute d cr.1 cr.2) db
  f.stavs.foldl store_stav db1

/-- Idempotent insert into staging.providers (lines 302-309). -/
def insertProvider (db : DB) (p : String) : DB :=
  if db.providers.contains p then db
  else { db with providers := db.providers ++ [p] }

/-- Idempotent insert into staging.vendors (lines 317-326). -/
def insertVendor (db : DB) (v : String) : DB :=
  if db.vendors.contains v then db
  else { db with vendors := db.vendors ++ [v] }

/-- Idempotent insert into staging.datasets (lines 328-338). -/
def insertDataset (db : DB) (v ds : String) : DB :=
  if db.datasets.any (fun x => x.2 == ds) then db
  else { db with datasets := db.datasets ++ [(v, ds)] }

/-- Idempotent insert into staging.geounits (lines 459-466). -/
def insertGeounit (db : DB) (g : String) (res : Option String) : DB :=
  if db.geounits.any (fun x => x.1 == g) then db
  else { db with geounits := db.geounits ++ [(g, res)] }

/-- Lines 394-412: look up the scrape by (provider, url, timestamp) and
create it when absent, returning the scrape id. -/
def resolveScrape (db : DB) (provider url : String) (ts : PyDateTime)
    (dataset : Option String) (page : Option String) (fname : Option String)
    (row_no : Nat) : DB × Nat :=
  match db.scrapes.find? (fun s =>
      s.provider_id == provider && s.uri == url && s.scraped_ts == ts) with
  | some s => (db, s.scrape_id)
  | none =>
    let sid := db.next_scrape_id
    ({ db with
        scrapes := db.scrapes ++
          [Scrape.mk sid provider url dataset ts page fname row_no],
        next_scrape_id := sid + 1 }, sid)

/-! ### The per-row loop (CSVLoader.load, lines 229-796) -/

/-- The loop state of CSVLoader.load: the database plus the file-level
variables of lines 193-201; halted models a break or an uncaught
exception ending the loop. -/
structure LoopState where
  db : DB
  gst : GState
  provider : Option String
  vendor : Option String
  dataset : Option String
  current_range : Nat
  missing_columns : List String
  halted : Bool
  processed : Nat

/-- Lines 281-292: the row-number range filter. Ranges are lists of row
numbers as in the source (one element: a single row; two: an inclusive
span). Returns (skip row, break loop, new range cursor); none models the
uncaught IndexError Python raises on a malformed range. -/
def rangeCheck (ranges : List (List Nat)) (current : Nat) (row_no : Nat) :
    Option (Bool × Bool × Nat) :=
  if ranges.isEmpty then some (false, false, current)
  else
    let cr := ranges.getD current []
    match cr.get? 0 with
    | none => none
    | some c0 =>
      let inR : Option Bool :=
        if cr.length == 1 && row_no == c0 then some true
        else if row_no < c0 then some false
        else
          match cr.get? 1 with
          | none => none
          | some c1 => some (decide (row_no ≤ c1))
      match inR with
      | none => none
      | some false => some (true, false, current)
      | some true =>
        let adv : Option Bool :=
          if cr.length == 1 then some true
          else
            match cr.get? 1 with
            | none => none
            | some c1 => some (row_no == c1)
        match adv with
        | none => none
        | some true =>
          if ranges.length ≤ current + 1 then some (false, true, current + 1)
          else some (false, false, current + 1)
        | some false => some (false, false, current)

/-- The columns filled with None when absent (lines 270-272). -/
def fillableColumns : List String :=
  ["resolution", "no_longer_monitored", "page", "pending", "quarantined",
   "percent", "county", "other_value", "region"]

/-- Lines 299-338: on a provider change, create the provider and derive
and create vendor and dataset. Returns none for the uncaught TypeError
when provider is doe-covid19 but state is None. -/
def providerStep (st : LoopState) (row : Row) : Option LoopState :=
  if row.get "provider" != st.provider then
    let provider := row.get "provider"
    let db :=
      match provider with
      | some p => insertProvider st.db p
      | none => st.db
    if provider == some "doe-covid19" then
      match row.get "state" with
      | some s =>
        let vendor := "US^" ++ s
        let dataset := vendor ++ ":COVID19"
        let db1 := insertDataset (insertVendor db vendor) vendor dataset
        some { st with db := db1, provider := provider,
                       vendor := some vendor, dataset := some dataset }
      | none => none
    else
      let db1 :=
        match provider with
        | some p => insertDataset (insertVendor db p) p p
        | none => db
      some { st with db := db1, provider := provider,
                     vendor := provider, dataset := provider }
  else some st

/-- One iteration of the row loop (lines 229-796). The oracles model
dateparser.parse, json.loads and float. -/
def processRow (dateparse : String → Option PyDateTime)
    (jsonLoads : String → Option JsonObj) (isFloat : String → Bool)
    (fname : Option String) (ranges : List (List Nat))
    (st : LoopState) (row_no : Nat) (raw : List (String × String)) :
    LoopState :=
  let row0 := normalizeRow raw
  -- lines 241-249: essential columns, once per file
  if row_no == 0 && !(row0.hasKey "access_time" && row0.hasKey "state") then
    { st with halted := true }
  -- lines 252-255: empty access_time skips the row
  else if !row0.truthy "access_time" then st
  else
    -- lines 256-265: defaults and renames
    let row1 :=
      if !row0.hasKey "provider" || row0.get "provider" == some "state" then
        row0.set "provider" (some "doe-covid19")
      else row0
    let row2 := if !row1.hasKey "country" then row1.set "country" (some "US")
      else row1
    let row3 := applyRenames row2
    -- lines 267-279: record and fill missing columns
    let st1 :=
      if row_no == 0 then
        { st with missing_columns :=
            fillableColumns.filter (fun c => !row3.hasKey c) }
      else st
    let row := st1.missing_columns.foldl (fun r c => r.set c none) row3
    -- lines 281-292: range filter
    match rangeCheck ranges st1.current_range row_no with
    | none => { st1 with halted := true }
    | some (skip, brk, cur) =>
      if brk then { st1 with halted := true, current_range := cur }
      else if skip then st1
      else
        let st2 := { st1 with current_range := cur }
        -- lines 294-297: skip rows with all empty values
        if !(row.any (fun kv =>
              match kv.2 with
              | some s => pyTruthy s
              | none => false)) then st2
        else
          -- lines 299-338
          match providerStep st2 row with
          | none => { st2 with halted := true }
          | some st3 =>
            -- lines 340-351: access time
            match dateparse ((row.get "access_time").getD "") with
            | none => st3
            | some accessTs =>
              -- lines 352-387: valid time
              match resolveValidTime jsonLoads dateparse (row.get "updated")
                  (st3.gst.id_vals_prev.map (fun iv => iv.valid_time))
                  accessTs with
              | TimeOutcome.skipRow => st3
              | TimeOutcome.abortError => { st3 with halted := true }
              | TimeOutcome.ok valid_time =>
                -- lines 389-393: missing URL skips the row
                if !row.truthy "url" then st3
                else
                  match row.get "provider", row.get "url" with
                  | some prov, some url =>
                    -- lines 394-412
                    let dbsid := resolveScrape st3.db prov url accessTs
                      st3.dataset (row.get "page") fname row_no
                    let st4 := { st3 with db := dbsid.1 }
                    -- lines 414-487
                    match groupCounterStep row_no st4.gst row dbsid.2
                        valid_time with
                    | StepOut.skipped gst1 => { st4 with gst := gst1 }
                    | StepOut.processed gst1 iv simpl =>
                      let resolution :=
                        if gst1.group_type == GroupType.other_hospital then
                          some "hospital"
                        else row.get "resolution"
                      let db1 := insertGeounit st4.db iv.geounit_id resolution
                      let ctx : FactCtx :=
                        FactCtx.mk isFloat row gst1.row_prev gst1.group_row
                          dbsid.2 iv.geounit_id valid_time st4.dataset row_no
                          (iv, simpl) gst1.simpl_prev
                      match extractFacts ctx gst1.group_type with
                      | none =>
                        { st4 with halted := true, db := db1, gst := gst1 }
                      | some f =>
                        let db2 := applyFacts db1 f
                        -- lines 793-796: previous-row snapshots
                        let gst2 := { gst1 with
                          id_vals_prev := some iv,
                          simpl_prev := some (iv, simpl),
                          row_prev := some row }
                        { st4 with db := db2, gst := gst2,
                                   processed := st4.processed + 1 }
                  | _, _ => { st3 with halted := true }

/-- The row loop: fold processRow over the rows, stopping when halted. -/
def runLoop (dateparse : String → Option PyDateTime)
    (jsonLoads : String → Option JsonObj) (isFloat : String → Bool)
    (fname : Option String) (ranges : List (List Nat))
    (st : LoopState) (n : Nat) :
    List (List (String × String)) → LoopState
  | [] => st
  | r :: rs =>
    if st.halted then st
    else
      runLoop dateparse jsonLoads isFloat fname ranges
        (processRow dateparse jsonLoads isFloat fname ranges st n r)
        (n + 1) rs

/-- The initial file-level state (lines 193-201). -/
def initGState : GState :=
  GState.mk GroupType.noGroup none 0 none none none

/-- The initial loop state over a database. -/
def initLoopState (db : DB) : LoopState :=
  LoopState.mk db initGState none none none 0 [] false 0

/-- Replace mode (lines 207-219): delete the scrapes tied to the file
and, by cascade, their fact rows. -/
def dbDeleteFile (db : DB) (fname : Option String) : DB :=
  let goneIds := (db.scrapes.filter (fun s => s.csv_file == fname)).map
    (fun s => s.scrape_id)
  { db with
      scrapes := db.scrapes.filter (fun s => s.csv_file != fname),
      stav := db.stav.filter (fun v => !goneIds.contains v.scrape_id) }

/-- CSVLoader.load (lines 172-799): dry runs return immediately; replace
deletes prior data for the file; new skips the whole file when any scrape
already references it; then the row loop runs. Returns the final database
and the number of rows fully processed. -/
def load (dateparse : String → Option PyDateTime)
    (jsonLoads : String → Option JsonObj) (isFloat : String → Bool)
    (op : String) (fname : Option String) (dry_run : Bool)
    (ranges : List (List Nat)) (csvRows : List (List (String × String)))
    (db : DB) : DB × Nat :=
  if dry_run then (db, 0)
  else
    let db1 := if op == "replace" then dbDeleteFile db fname else db
    let skipAll := op == "new" && db.scrapes.any (fun s => s.csv_file == fname)
    if skipAll then (db1, 0)
    else
      let fin := runLoop dateparse jsonLoads isFloat fname ranges
        (initLoopState db1) 0 csvRows
      (fin.db, fin.processed)

/-! ### Claim-specific auxiliary definitions -/

/-- The classification as a pure function of six boolean flags: carried
state is hospital; age_range, sex, other, other_value populated; other
equals the hospital sentinel. -/
def classifyFlags (isHosp hasAge hasSex hasOther hasOV isSent : Bool) :
    GroupType :=
  if isHosp then GroupType.other_hospital
  else if hasAge then
    (if hasSex then GroupType.age_sex
     else if hasOther then GroupType.age_other else GroupType.age)
  else if hasSex then
    (if hasOther then GroupType.sex_other else GroupType.sex)
  else if hasOther && isSent then GroupType.other_hospital
  else GroupType.noGroup

/-- The name parts used for a first-group-row simple attribute in the
three groups of claim C9. -/
def c9parts (g : GroupType) (attr : String) : List String :=
  match g with
  | GroupType.age_sex => ["=age", "age_range", "=" ++ attr]
  | _ => ["=" ++ attr]

/-- A concrete extraction context exercising group age.sex. -/
def c9ctx : FactCtx :=
  FactCtx.mk (fun _ => false)
    [("age_range", some "0-9"), ("sex", some "male"), ("cases", some "10")]
    none 0 7 "GEO" (PyDate.mk 2020 4 1) (some "ds") 3
    ((IdVals.mk 7 "GEO" (PyDate.mk 2020 4 1)), []) none

/-- The effects extracted from c9ctx in group age.sex. -/
def c9facts : Facts :=
  Facts.mk [(some "ds", "age_0-9_cases")]
    [StavRec.mk 7 "GEO" (PyDate.mk 2020 4 1) "cases" (some "10") 3 "cases"] 0

/-! ### Theorems -/

/-- Claim C4: with the percent check enabled, a percent value equal to
yes case-insensitively appends the literal percent segment before the
underscore join; any other non-empty percent value leaves the name
unchanged and logs a warning; an absent or empty percent value leaves
the name unchanged without a warning. -/
theorem C4_percent_check (row : Row) (parts resolved : List String)
    (hres : parts.mapM (resolvePart row) = some resolved) :
    (∀ p, row.get "percent" = some p → pyLower (pyStrip p) = "yes" →
      mk_attr_name row parts true =
        some (strIntercalate "_" (resolved ++ ["percent"]), false))
    ∧ (∀ p, row.get "percent" = some p → p ≠ "" →
        pyLower (pyStrip p) ≠ "yes" →
      mk_attr_name row parts true =
        some (strIntercalate "_" resolved, true))
    ∧ (row.get "percent" = none →
      mk_attr_name row parts true =
        some (strIntercalate "_" resolved, false))
    ∧ (row.get "percent" = some "" →
      mk_attr_name row parts true =
        some (strIntercalate "_" resolved, false)) := by
  refine ⟨?_, ?_, ?_, ?_⟩
  · intro p hp hyes
    have hpne : p ≠ "" := by
      intro h
      rw [h] at hyes
      exact absurd hyes (by decide)
    have htr : row.truthy "percent" = true := by
      simp [Row.truthy, hp, pyTruthy, hpne]
    unfold mk_attr_name
    rw [hres]
    simp [htr, hp, hyes]
  · intro p hp hpne hnyes
    have htr : row.truthy "percent" = true := by
      simp [Row.truthy, hp, pyTruthy, hpne]
    unfold mk_attr_name
    rw [hres]
    simp [htr, hp, hnyes]
  · intro hp
    have htr : row.truthy "percent" = false := by
      simp [Row.truthy, hp]
    unfold mk_attr_name
    rw [hres]
    simp [htr]
  · intro hp
    have htr : row.truthy "percent" = false := by
      simp [Row.truthy, hp, pyTruthy]
    unfold mk_attr_name
    rw [hres]
    simp [htr]

/-- Witness for C4 at concrete inputs: percent Yes yields cases_percent
with no warning; percent no yields cases with a warning; absent percent
yields cases with no warning. -/
theorem C4_percent_check_witness :
    mk_attr_name [("percent", some "Yes"), ("cases", some "10")]
        ["=cases"] true = some ("cases_percent", false)
    ∧ mk_attr_name [("percent", some "no"), ("cases", some "10")]
        ["=cases"] true = some ("cases", true)
    ∧ mk_attr_name [("cases", some "10")] ["=cases"] true =
        some ("cases", false) := by
  refine ⟨?_, ?_, ?_⟩
  · have h := (C4_percent_check
      [("percent", some "Yes"), ("cases", some "10")] ["=cases"] ["cases"]
      (by decide)).1 "Yes" (by decide) (by decide)
    rw [h]
    decide
  · have h := ((C4_percent_check
      [("percent", some "no"), ("cases", some "10")] ["=cases"] ["cases"]
      (by decide)).2).1 "no" (by decide) (by decide) (by decide)
    rw [h]
    decide
  · have h := ((C4_percent_check [("cases", some "10")] ["=cases"] ["cases"]
      (by decide)).2).2.1 (by decide)
    rw [h]
    decide

/-- Claim C5: when updated is present and begins with a brace, and the
structure yields a valid year/month/day date, the resolved valid time is
that date, for any access timestamp and any carried previous time. -/
theorem C5_structured_updated (jl : String → Option JsonObj)
    (dp : String → Option PyDateTime) (u : String) (jd : JsonObj)
    (y m d : Int) (dt : PyDate) (prev : Option PyDate) (access : PyDateTime)
    (hne : u ≠ "") (hbr : pyStartsWith (pyStrip u) "\x7b" = true)
    (hjl : jl (replaceSingleQuotes u) = some jd)
    (hy : jd.get "year" = some y) (hm : jd.get "month" = some m)
    (hd : jd.get "day" = some d) (hdt : datetime_date y m d = some dt) :
    resolveValidTime jl dp (some u) prev access = TimeOutcome.ok dt := by
  have hu : (u == "") = false := by simp [hne]
  unfold resolveValidTime
  simp [hu, hbr, hjl, hy, hm, hd, hdt]

/-- Witness for C5: a concrete structured updated value resolves to
2020-04-01 under two different access timestamps. -/
theorem C5_structured_updated_witness :
    resolveValidTime
      (fun s =>
        if s == "\x7b\x22year\x22: 2020, \x22month\x22: 4, \x22day\x22: 1\x7d"
        then some [("year", 2020), ("month", 4), ("day", 1)] else none)
      (fun _ => none)
      (some "\x7b\x22year\x22: 2020, \x22month\x22: 4, \x22day\x22: 1\x7d")
      none (PyDateTime.mk (PyDate.mk 2019 12 31) 5) =
      TimeOutcome.ok (PyDate.mk 2020 4 1)
    ∧ resolveValidTime
      (fun s =>
        if s == "\x7b\x22year\x22: 2020, \x22month\x22: 4, \x22day\x22: 1\x7d"
        then some [("year", 2020), ("month", 4), ("day", 1)] else none)
      (fun _ => none)
      (some "\x7b\x22year\x22: 2020, \x22month\x22: 4, \x22day\x22: 1\x7d")
      none (PyDateTime.mk (PyDate.mk 2021 7 15) 999) =
      TimeOutcome.ok (PyDate.mk 2020 4 1) := by
  constructor
  · exact C5_structured_updated _ _ _ [("year", 2020), ("month", 4), ("day", 1)]
      2020 4 1 (PyDate.mk 2020 4 1) none (PyDateTime.mk (PyDate.mk 2019 12 31) 5)
      (by decide) (by decide) (by decide) (by decide) (by decide) (by decide)
      (by decide)
  · exact C5_structured_updated _ _ _ [("year", 2020), ("month", 4), ("day", 1)]
      2020 4 1 (PyDate.mk 2020 4 1) none (PyDateTime.mk (PyDate.mk 2021 7 15) 999)
      (by decide) (by decide) (by decide) (by decide) (by decide) (by decide)
      (by decide)

/-- Claim C6 counterexample: an updated value that json-decodes to an
object without year/month/day fields is not skipped with a warning; the
uncaught KeyError aborts the load. The claim predicts skipRow here. -/
theorem C6_counterexample :
    resolveValidTime (fun s => if s == "\x7b\x7d" then some [] else none)
      (fun _ => none) (some "\x7b\x7d") none
      (PyDateTime.mk (PyDate.mk 2020 1 1) 0) = TimeOutcome.abortError
    ∧ TimeOutcome.abortError ≠ TimeOutcome.skipRow := by
  constructor
  · decide
  · decide

/-- Claim C6 amended: a JSON-decoding failure of a brace-led updated
value, or a parse failure of a free-form updated value, skips only that
row with a warning; but when the value decodes to an object lacking the
year field, or whose fields do not form a valid date, the error is
uncaught and aborts the load. -/
theorem C6_amended_parse_failures (jl : String → Option JsonObj)
    (dp : String → Option PyDateTime) (u : String) (prev : Option PyDate)
    (access : PyDateTime) (hne : u ≠ "") :
    (pyStartsWith (pyStrip u) "\x7b" = true →
      jl (replaceSingleQuotes u) = none →
      resolveValidTime jl dp (some u) prev access = TimeOutcome.skipRow)
    ∧ (pyStartsWith (pyStrip u) "\x7b" = false → dp u = none →
      resolveValidTime jl dp (some u) prev access = TimeOutcome.skipRow)
    ∧ (∀ jd, pyStartsWith (pyStrip u) "\x7b" = true →
        jl (replaceSingleQuotes u) = some jd → jd.get "year" = none →
      resolveValidTime jl dp (some u) prev access = TimeOutcome.abortError)
    ∧ (∀ jd y m d, pyStartsWith (pyStrip u) "\x7b" = true →
        jl (replaceSingleQuotes u) = some jd → jd.get "year" = some y →
        jd.get "month" = some m → jd.get "day" = some d →
        datetime_date y m d = none →
      resolveValidTime jl dp (some u) prev access = TimeOutcome.abortError) := by
  have hu : (u == "") = false := by simp [hne]
  refine ⟨?_, ?_, ?_, ?_⟩
  · intro hbr hjl
    unfold resolveValidTime
    simp [hu, hbr, hjl]
  · intro hbr hdp
    unfold resolveValidTime
    simp [hu, hbr, hdp]
  · intro jd hbr hjl hy
    unfold resolveValidTime
    simp [hu, hbr, hjl, hy]
  · intro jd y m d hbr hjl hy hm hd hdd
    unfold resolveValidTime
    simp [hu, hbr, hjl, hy, hm, hd, hdd]

/-- Witness for the amended C6: concrete skip on a decode failure, skip
on a free-form parse failure, and abort on a decoded object missing the
year field. -/
theorem C6_amended_parse_failures_witness :
    resolveValidTime (fun _ => none) (fun _ => none) (some "\x7bbad")
      none (PyDateTime.mk (PyDate.mk 2020 1 1) 0) = TimeOutcome.skipRow
    ∧ resolveValidTime (fun _ => none) (fun _ => none) (some "notadate")
      none (PyDateTime.mk (PyDate.mk 2020 1 1) 0) = TimeOutcome.skipRow
    ∧ resolveValidTime (fun s => if s == "\x7b\x7d" then some [] else none)
      (fun _ => none) (some "\x7b\x7d") none
      (PyDateTime.mk (PyDate.mk 2020 1 1) 0) = TimeOutcome.abortError := by
  refine ⟨?_, ?_, ?_⟩
  · exact (C6_amended_parse_failures (fun _ => none) (fun _ => none) "\x7bbad"
      none (PyDateTime.mk (PyDate.mk 2020 1 1) 0) (by decide)).1
      (by decide) rfl
  · exact ((C6_amended_parse_failures (fun _ => none) (fun _ => none)
      "notadate" none (PyDateTime.mk (PyDate.mk 2020 1 1) 0) (by decide)).2).1
      (by decide) rfl
  · exact ((C6_amended_parse_failures
      (fun s => if s == "\x7b\x7d" then some [] else none) (fun _ => none)
      "\x7b\x7d" none (PyDateTime.mk (PyDate.mk 2020 1 1) 0)
      (by decide)).2).2.1 [] (by decide) (by decide) (by decide)

/-- The group produced by the continuation part of a classification step
is exactly the classified group. -/
theorem stepGroup_cont (rn : Nat) (st : GState) (row : Row) (sid : Nat)
    (vt : PyDate) (g : GroupType) :
    stepGroup (groupCounterCont rn st row sid vt g) = g := rfl

/-- Claim C1 counterexample: the selected state is not a pure function of
the four column-presence flags plus the carried-hospital flag. Two rows
with identical flags (only other populated, carried state not hospital)
classify differently: other equal to the sentinel enters HOSPITAL while
any other value yields NONE. -/
theorem C1_counterexample :
    ¬ ∃ f : Bool → Bool → Bool → Bool → Bool → GroupType,
      ∀ (st : GState) (row : Row) (rn sid : Nat) (vt : PyDate),
        stepGroup (groupCounterStep rn st row sid vt) =
          f (row.truthy "age_range") (row.truthy "sex") (row.truthy "other")
            (row.truthy "other_value")
            (st.group_type == GroupType.other_hospital) := by
  rintro ⟨f, hf⟩
  have h1 := hf initGState [("other", some "HospitalName")] 1 0
    (PyDate.mk 2020 1 1)
  have h2 := hf initGState [("other", some "x")] 1 0 (PyDate.mk 2020 1 1)
  rw [show stepGroup (groupCounterStep 1 initGState
      [("other", some "HospitalName")] 0 (PyDate.mk 2020 1 1)) =
      GroupType.other_hospital from by decide] at h1
  rw [show stepGroup (groupCounterStep 1 initGState [("other", some "x")] 0
      (PyDate.mk 2020 1 1)) = GroupType.noGroup from by decide] at h2
  rw [show Row.truthy [("other", some "HospitalName")] "age_range" = false
      from by decide,
    show Row.truthy [("other", some "HospitalName")] "sex" = false
      from by decide,
    show Row.truthy [("other", some "HospitalName")] "other" = true
      from by decide,
    show Row.truthy [("other", some "HospitalName")] "other_value" = false
      from by decide,
    show (initGState.group_type == GroupType.other_hospital) = false
      from by decide] at h1
  rw [show Row.truthy [("other", some "x")] "age_range" = false from by decide,
    show Row.truthy [("other", some "x")] "sex" = false from by decide,
    show Row.truthy [("other", some "x")] "other" = true from by decide,
    show Row.truthy [("other", some "x")] "other_value" = false from by decide,
    show (initGState.group_type == GroupType.other_hospital) = false
      from by decide] at h2
  exact absurd (h1.trans h2.symm) (by decide)

/-- Claim C1 amended: the classifier always selects exactly one of the
seven states, and the selection is a pure function of six inputs: the
carried-hospital flag, the four column-presence flags, and whether the
other column equals the hospital sentinel. -/
theorem C1_amended_classification :
    ∃ f : Bool → Bool → Bool → Bool → Bool → Bool → GroupType,
      ∀ (st : GState) (row : Row) (rn sid : Nat) (vt : PyDate),
        stepGroup (groupCounterStep rn st row sid vt) =
          f (st.group_type == GroupType.other_hospital)
            (row.truthy "age_range") (row.truthy "sex") (row.truthy "other")
            (row.truthy "other_value")
            (row.get "other" == some hospitalSentinel) := by
  refine ⟨classifyFlags, ?_⟩
  intro st row rn sid vt
  unfold groupCounterStep classifyFlags
  cases hh : st.group_type == GroupType.other_hospital
  · simp only [hh, Bool.false_eq_true, if_false]
    cases ha : row.truthy "age_range"
    · simp only [ha, Bool.false_eq_true, if_false]
      cases hs : row.truthy "sex"
      · simp only [hs, Bool.false_eq_true, if_false]
        cases ho : row.truthy "other" && (row.get "other" == some hospitalSentinel)
        · simp only [ho, Bool.false_eq_true, if_false]
          exact stepGroup_cont rn st row sid vt GroupType.noGroup
        · simp only [ho, if_true]
          simp [stepGroup, stepState]
      · simp only [hs, if_true]
        exact stepGroup_cont rn st row sid vt _
    · simp only [ha, if_true]
      exact stepGroup_cont rn st row sid vt _
  · simp only [hh, if_true]
    have hg : st.group_type = GroupType.other_hospital := by
      simpa using hh
    cases ho : row.get "other" == some hospitalSentinel
    · simp only [ho, Bool.false_eq_true, if_false]
      exact stepGroup_cont rn st row sid vt GroupType.other_hospital
    · simp only [ho, if_true]
      simp [stepGroup, stepState, hg]

/-- One classification step keeps the hospital group. -/
theorem hospital_absorbing_step (rn : Nat) (st : GState) (row : Row)
    (sid : Nat) (vt : PyDate)
    (h : st.group_type = GroupType.other_hospital) :
    (stepState (groupCounterStep rn st row sid vt)).group_type =
      GroupType.other_hospital := by
  unfold groupCounterStep
  have hh : (st.group_type == GroupType.other_hospital) = true := by
    simp [h]
  simp only [hh, if_true]
  cases ho : row.get "other" == some hospitalSentinel
  · simp only [ho, Bool.false_eq_true, if_false]
    have := stepGroup_cont rn st row sid vt GroupType.other_hospital
    exact this
  · simp only [ho, if_true]
    simp [stepState, h]

/-- Claim C10: once the carried state is HOSPITAL, it remains HOSPITAL
after processing any further list of rows, whatever their contents. -/
theorem C10_hospital_absorbing (st : GState)
    (h : st.group_type = GroupType.other_hospital)
    (rows : List (Nat × Row × Nat × PyDate)) :
    (gLoop st rows).group_type = GroupType.other_hospital := by
  induction rows generalizing st with
  | nil => simpa [gLoop] using h
  | cons x rest ih =>
    rw [gLoop]
    exact ih _ (hospital_absorbing_step x.1 st x.2.1 x.2.2.1 x.2.2.2 h)

/-- Witness for C10: a concrete hospital-state trace over rows with age,
sex and other contents stays in the hospital group. -/
theorem C10_hospital_absorbing_witness :
    (gLoop (GState.mk GroupType.other_hospital (some "General") 2 none
        none none)
      [(3, [("age_range", some "0-9")], 5, PyDate.mk 2020 4 1),
       (4, [("sex", some "male"), ("other", some "smoker")], 5,
         PyDate.mk 2020 4 1),
       (5, [("other", some "HospitalName"),
            ("other_value", some "Mercy")], 6, PyDate.mk 2020 4 2)]
      ).group_type = GroupType.other_hospital :=
  C10_hospital_absorbing
    (GState.mk GroupType.other_hospital (some "General") 2 none none none)
    rfl
    [(3, [("age_range", some "0-9")], 5, PyDate.mk 2020 4 1),
     (4, [("sex", some "male"), ("other", some "smoker")], 5,
       PyDate.mk 2020 4 1),
     (5, [("other", some "HospitalName"),
          ("other_value", some "Mercy")], 6, PyDate.mk 2020 4 2)]

/-- Counter semantics of the continuation part of a step, for rows after
the first: the counter is zeroed exactly when the identity tuple changed
or the group is NONE, and otherwise increments. -/
theorem cont_counter (rn : Nat) (st : GState) (row : Row) (sid : Nat)
    (vt : PyDate) (g : GroupType) (st2 : GState) (iv : IdVals)
    (sv : List (Option String)) (p : IdVals)
    (hrn : rn ≠ 0) (hprev : st.id_vals_prev = some p)
    (h : groupCounterCont rn st row sid vt g = StepOut.processed st2 iv sv) :
    st2.group_type = g
    ∧ (st2.group_row = 0 ↔ (iv ≠ p ∨ g = GroupType.noGroup))
    ∧ (iv = p → g ≠ GroupType.noGroup →
        st2.group_row = st.group_row + 1) := by
  have hr0 : (rn == 0) = false := by simp [hrn]
  unfold groupCounterCont at h
  simp only [hr0, Bool.false_eq_true, if_false] at h
  injection h with h1 h2 h3
  subst h1
  refine ⟨rfl, ?_, ?_⟩
  · rw [h2, hprev]
    by_cases hivp : iv = p
    · by_cases hgn : g = GroupType.noGroup
      · simp [hivp, hgn]
      · simp [hivp, hgn]
    · simp [hivp]
  · intro hiv hg
    rw [h2, hprev]
    simp [hiv, hg]

/-- Claim C2: for a processed row that has a previous processed row, the
group-row counter after the row is zero exactly when the identity tuple
differs from the previous one or the selected group is NONE; in every
other case it is the previous counter plus one. -/
theorem C2_counter (rn : Nat) (st : GState) (row : Row) (sid : Nat)
    (vt : PyDate) (st2 : GState) (iv : IdVals) (sv : List (Option String))
    (p : IdVals) (hrn : rn ≠ 0) (hprev : st.id_vals_prev = some p)
    (hstep : groupCounterStep rn st row sid vt =
      StepOut.processed st2 iv sv) :
    (st2.group_row = 0 ↔ (iv ≠ p ∨ st2.group_type = GroupType.noGroup))
    ∧ (iv = p → st2.group_type ≠ GroupType.noGroup →
        st2.group_row = st.group_row + 1) := by
  unfold groupCounterStep at hstep
  repeat' split at hstep
  all_goals
    first
      | (have h := cont_counter rn st row sid vt _ st2 iv sv p hrn hprev hstep
         rw [h.1]
         exact ⟨h.2.1, h.2.2⟩)
      | cases hstep

/-- Witness for C2: a concrete second row in group AGE with an unchanged
identity tuple increments the counter from 5 to 6. -/
theorem C2_counter_witness :
    ((GState.mk GroupType.age none 6
        (some (IdVals.mk 0 "" (PyDate.mk 2020 4 1))) none none).group_row = 0
      ↔ (IdVals.mk 0 "" (PyDate.mk 2020 4 1) ≠
          IdVals.mk 0 "" (PyDate.mk 2020 4 1)
        ∨ (GState.mk GroupType.age none 6
            (some (IdVals.mk 0 "" (PyDate.mk 2020 4 1))) none
            none).group_type = GroupType.noGroup))
    ∧ (IdVals.mk 0 "" (PyDate.mk 2020 4 1) =
        IdVals.mk 0 "" (PyDate.mk 2020 4 1) →
      (GState.mk GroupType.age none 6
        (some (IdVals.mk 0 "" (PyDate.mk 2020 4 1))) none
        none).group_type ≠ GroupType.noGroup →
      (GState.mk GroupType.age none 6
        (some (IdVals.mk 0 "" (PyDate.mk 2020 4 1))) none
        none).group_row =
      (GState.mk GroupType.noGroup none 5
        (some (IdVals.mk 0 "" (PyDate.mk 2020 4 1))) none
        none).group_row + 1) :=
  C2_counter 1
    (GState.mk GroupType.noGroup none 5
      (some (IdVals.mk 0 "" (PyDate.mk 2020 4 1))) none none)
    [("age_range", some "0-9")] 0 (PyDate.mk 2020 4 1)
    (GState.mk GroupType.age none 6
      (some (IdVals.mk 0 "" (PyDate.mk 2020 4 1))) none none)
    (IdVals.mk 0 "" (PyDate.mk 2020 4 1))
    (List.replicate 14 none)
    (IdVals.mk 0 "" (PyDate.mk 2020 4 1))
    (by decide) rfl (by decide)

/-- Data of a constructed string. -/
theorem data_mk (l : List Char) : (String.mk l).data = l := rfl

/-- A string is empty exactly when its character list is. -/
theorem eq_empty_iff_data (s : String) : s = "" ↔ s.data = [] := by
  obtain ⟨d⟩ := s
  constructor
  · intro h
    rw [h]
  · intro h
    rw [show d = ([] : List Char) from h]

/-- Upper-casing preserves emptiness comparisons. -/
theorem pyUpper_eq_empty_iff (s t : String) (h : pyUpper s = pyUpper t) :
    s = "" ↔ t = "" := by
  have hd : s.data.map Char.toUpper = t.data.map Char.toUpper := by
    have h2 := congrArg String.data h
    simpa [pyUpper, data_mk] using h2
  rw [eq_empty_iff_data, eq_empty_iff_data]
  constructor
  · intro hs
    have : t.data.map Char.toUpper = [] := by rw [← hd, hs]; rfl
    simpa using this
  · intro ht
    have : s.data.map Char.toUpper = [] := by rw [hd, ht]; rfl
    simpa using this

/-- Case-insensitively equal column values have equal truthiness. -/
theorem truthy_of_map_upper (r1 r2 : Row) (k : String)
    (h : (r1.get k).map pyUpper = (r2.get k).map pyUpper) :
    r1.truthy k = r2.truthy k := by
  unfold Row.truthy
  cases h1 : r1.get k <;> cases h2 : r2.get k <;>
    rw [h1, h2] at h <;> simp_all [pyTruthy]
  rename_i s1 s2
  have := pyUpper_eq_empty_iff s1 s2 (by simpa using h)
  by_cases hs1 : s1 = ""
  · simp [hs1, this.mp hs1]
  · simp [hs1, show ¬s2 = "" from fun hx => hs1 (this.mpr hx)]

/-- Case-insensitively equal column values have equal uppercased texts. -/
theorem upper_getD_of_map_upper (o1 o2 : Option String)
    (h : o1.map pyUpper = o2.map pyUpper) :
    pyUpper (o1.getD "") = pyUpper (o2.getD "") := by
  cases o1 <;> cases o2 <;> simp_all

/-- Claim C3 counterexample: two rows whose country, state, county,
region inputs are identical up to letter case (all trimmed, no facility)
synthesize different geounit ids, because the region part is appended
verbatim without uppercasing. -/
theorem C3_counterexample :
    ((Row.get [("country", some "US"), ("state", some "tx"),
        ("region", some "Abc")] "country").map pyLower =
      (Row.get [("country", some "us"), ("state", some "TX"),
        ("region", some "ABC")] "country").map pyLower
    ∧ (Row.get [("country", some "US"), ("state", some "tx"),
        ("region", some "Abc")] "state").map pyLower =
      (Row.get [("country", some "us"), ("state", some "TX"),
        ("region", some "ABC")] "state").map pyLower
    ∧ (Row.get [("country", some "US"), ("state", some "tx"),
        ("region", some "Abc")] "county").map pyLower =
      (Row.get [("country", some "us"), ("state", some "TX"),
        ("region", some "ABC")] "county").map pyLower
    ∧ (Row.get [("country", some "US"), ("state", some "tx"),
        ("region", some "Abc")] "region").map pyLower =
      (Row.get [("country", some "us"), ("state", some "TX"),
        ("region", some "ABC")] "region").map pyLower)
    ∧ mkGeounitId [("country", some "US"), ("state", some "tx"),
        ("region", some "Abc")] GroupType.noGroup none ≠
      mkGeounitId [("country", some "us"), ("state", some "TX"),
        ("region", some "ABC")] GroupType.noGroup none := by
  refine ⟨⟨?_, ?_, ?_, ?_⟩, ?_⟩ <;> decide

/-- Claim C3 amended: the geounit id is determined by the uppercased
country, state and county values, the verbatim region value, the group
and the facility name; in particular country, state and county are
case-insensitive while region (and the facility name) are appended
verbatim. -/
theorem C3_amended_geounit (r1 r2 : Row) (g : GroupType) (hn : Option String)
    (hc : (r1.get "country").map pyUpper = (r2.get "country").map pyUpper)
    (hs : (r1.get "state").map pyUpper = (r2.get "state").map pyUpper)
    (hk : (r1.get "county").map pyUpper = (r2.get "county").map pyUpper)
    (hr : r1.get "region" = r2.get "region") :
    mkGeounitId r1 g hn = mkGeounitId r2 g hn := by
  have tc := truthy_of_map_upper r1 r2 "country" hc
  have ts := truthy_of_map_upper r1 r2 "state" hs
  have tk := truthy_of_map_upper r1 r2 "county" hk
  have tr : r1.truthy "region" = r2.truthy "region" := by
    unfold Row.truthy
    rw [hr]
  have uc := upper_getD_of_map_upper _ _ hc
  have us := upper_getD_of_map_upper _ _ hs
  have uk := upper_getD_of_map_upper _ _ hk
  cases hc2 : r2.truthy "country" <;> cases hs2 : r2.truthy "state" <;>
    cases hk2 : r2.truthy "county" <;>
      simp [mkGeounitId, List.filter, tc, ts, tk, tr, hc2, hs2, hk2,
        uc, us, uk, hr]

/-- Witness for the amended C3: concrete rows equal up to case in
country and state and with equal region synthesize the same id. -/
theorem C3_amended_geounit_witness :
    mkGeounitId [("country", some "us"), ("state", some "Tx"),
        ("region", some "Abc")] GroupType.noGroup none =
      mkGeounitId [("country", some "US"), ("state", some "tX"),
        ("region", some "Abc")] GroupType.noGroup none :=
  C3_amended_geounit
    [("country", some "us"), ("state", some "Tx"), ("region", some "Abc")]
    [("country", some "US"), ("state", some "tX"), ("region", some "Abc")]
    GroupType.noGroup none (by decide) (by decide) (by decide) (by decide)

/-- Every entry of a row after an assignment is the assigned pair or an
original entry. -/
theorem Row.mem_set (r : Row) (k : String) (v : Option String)
    (kv : String × Option String) (h : kv ∈ Row.set r k v) :
    kv = (k, v) ∨ kv ∈ r := by
  unfold Row.set at h
  by_cases hk : r.hasKey k = true
  · simp only [hk, if_true] at h
    obtain ⟨a, ha, hae⟩ := List.mem_map.mp h
    by_cases hak : (a.1 == k) = true
    · rw [hak] at hae
      simp at hae
      left
      exact hae.symm
    · simp only [hak, Bool.false_eq_true, if_false] at hae
      right
      rw [← hae]
      exact ha
  · simp only [hk, if_false] at h
    rcases List.mem_append.mp h with h1 | h1
    · right
      exact h1
    · left
      simpa using h1

/-- Lookup in the overwrite branch of an assignment, other key. -/
theorem get_map_upd_ne (r : Row) (k k2 : String) (v : Option String)
    (h : (k2 == k) = false) :
    Row.get (r.map (fun kv => if kv.1 == k then (k, v) else kv)) k2 =
      Row.get r k2 := by
  have hk2a : (k == k2) = false := by
    rw [beq_eq_false_iff_ne] at h ⊢
    exact fun hx => h hx.symm
  induction r with
  | nil => rfl
  | cons a t ih =>
    by_cases ha : (a.1 == k) = true
    · have ha2 : (a.1 == k2) = false := by
        have hx : a.1 = k := by simpa using ha
        rw [hx]
        exact hk2a
      simp only [List.map_cons, ha, if_true]
      rw [Row.get, Row.get, List.find?, List.find?]
      simp only [hk2a, ha2]
      exact ih
    · have ha1 : (a.1 == k) = false := by simpa using ha
      simp only [List.map_cons, ha1, Bool.false_eq_true, if_false]
      rw [Row.get, Row.get, List.find?, List.find?]
      by_cases ha2 : (a.1 == k2) = true
      · simp [ha2]
      · have : (a.1 == k2) = false := by simpa using ha2
        simp only [this]
        exact ih

/-- Lookup in the overwrite branch of an assignment, same key. -/
theorem get_map_upd_self (r : Row) (k : String) (v : Option String)
    (hk : r.hasKey k = true) :
    Row.get (r.map (fun kv => if kv.1 == k then (k, v) else kv)) k = v := by
  induction r with
  | nil => simp [Row.hasKey] at hk
  | cons a t ih =>
    by_cases ha : (a.1 == k) = true
    · simp only [List.map_cons, ha, if_true]
      rw [Row.get, List.find?]
      simp
    · have ha1 : (a.1 == k) = false := by simpa using ha
      simp only [List.map_cons, ha1, Bool.false_eq_true, if_false]
      rw [Row.get, List.find?]
      simp only [ha1]
      have hk2 : Row.hasKey t k = true := by
        rw [Row.hasKey]
        rw [Row.hasKey, List.any_cons, ha1] at hk
        simpa using hk
      exact ih hk2

/-- Lookup in the append branch of an assignment, same key. -/
theorem get_append_single_self (r : Row) (k : String) (v : Option String)
    (hk : r.hasKey k = false) :
    Row.get (r ++ [(k, v)]) k = v := by
  induction r with
  | nil => simp [Row.get, List.find?]
  | cons a t ih =>
    rw [Row.hasKey, List.any_cons] at hk
    have h1 : (a.1 == k) = false := by
      cases hx : a.1 == k
      · rfl
      · rw [hx] at hk
        simp at hk
    have h2 : Row.hasKey t k = false := by
      rw [Row.hasKey]
      rw [h1] at hk
      simpa [Row.hasKey] using hk
    rw [List.cons_append, Row.get, List.find?]
    simp only [h1]
    exact ih h2

/-- Lookup in the append branch of an assignment, other key. -/
theorem get_append_single_ne (r : Row) (k k2 : String) (v : Option String)
    (h : (k2 == k) = false) :
    Row.get (r ++ [(k, v)]) k2 = Row.get r k2 := by
  have hk2a : (k == k2) = false := by
    rw [beq_eq_false_iff_ne] at h ⊢
    exact fun hx => h hx.symm
  induction r with
  | nil => simp [Row.get, List.find?, hk2a]
  | cons a t ih =>
    rw [List.cons_append, Row.get, Row.get, List.find?, List.find?]
    by_cases ha : (a.1 == k2) = true
    · simp [ha]
    · have ha1 : (a.1 == k2) = false := by simpa using ha
      simp only [ha1]
      exact ih

/-- Looking up an assigned key yields the assigned value. -/
theorem Row.get_set_self (r : Row) (k : String) (v : Option String) :
    (Row.set r k v).get k = v := by
  unfold Row.set
  by_cases hk : r.hasKey k = true
  · simp only [hk, if_true]
    exact get_map_upd_self r k v hk
  · have hk2 : r.hasKey k = false := by simpa using hk
    simp only [hk2, Bool.false_eq_true, if_false]
    exact get_append_single_self r k v hk2

/-- Assigning one key leaves lookups of other keys unchanged. -/
theorem Row.get_set_ne (r : Row) (k k2 : String) (v : Option String)
    (h : (k2 == k) = false) :
    (Row.set r k v).get k2 = r.get k2 := by
  unfold Row.set
  by_cases hk : r.hasKey k = true
  · simp only [hk, if_true]
    exact get_map_upd_ne r k k2 v h
  · simp only [hk, if_false]
    exact get_append_single_ne r k k2 v h

/-- Lookup on a cons cell whose key matches. -/
theorem Row.get_cons_hit (a : String × Option String) (t : Row) (k : String)
    (h : (a.1 == k) = true) : Row.get (a :: t) k = a.2 := by
  rw [Row.get, List.find?]
  simp [h]

/-- Lookup on a cons cell whose key differs. -/
theorem Row.get_cons_miss (a : String × Option String) (t : Row) (k : String)
    (h : (a.1 == k) = false) : Row.get (a :: t) k = Row.get t k := by
  rw [Row.get, Row.get, List.find?]
  simp only [h]

/-- Key presence on a cons cell. -/
theorem Row.hasKey_cons (a : String × Option String) (t : Row) (k : String) :
    Row.hasKey (a :: t) k = ((a.1 == k) || Row.hasKey t k) := by
  rw [Row.hasKey, Row.hasKey, List.any_cons]

/-- Erase on a cons cell. -/
theorem Row.erase_cons (a : String × Option String) (t : Row) (k : String) :
    Row.erase (a :: t) k =
      if (a.1 != k) = true then a :: Row.erase t k else Row.erase t k := by
  rw [Row.erase, Row.erase, List.filter_cons]

/-- An erased key is absent. -/
theorem Row.hasKey_erase_self (r : Row) (k : String) :
    (Row.erase r k).hasKey k = false := by
  induction r with
  | nil => rfl
  | cons a t ih =>
    rw [Row.erase_cons]
    by_cases ha : (a.1 == k) = true
    · have hb : (a.1 != k) = false := by simp [bne, ha]
      simp only [hb, Bool.false_eq_true, if_false]
      exact ih
    · have ha1 : (a.1 == k) = false := by simpa using ha
      have hb : (a.1 != k) = true := by simp [bne, ha1]
      simp only [hb, if_true]
      rw [Row.hasKey_cons, ha1, ih]
      rfl

/-- Erasing one key leaves lookups of other keys unchanged. -/
theorem Row.get_erase_ne (r : Row) (k k2 : String) (h : (k2 == k) = false) :
    (Row.erase r k).get k2 = r.get k2 := by
  induction r with
  | nil => rfl
  | cons a t ih =>
    rw [Row.erase_cons]
    by_cases ha : (a.1 == k) = true
    · have ha2 : (a.1 == k2) = false := by
        have hx : a.1 = k := by simpa using ha
        rw [beq_eq_false_iff_ne] at h ⊢
        rw [hx]
        exact fun hy => h hy.symm
      have hb : (a.1 != k) = false := by simp [bne, ha]
      simp only [hb, Bool.false_eq_true, if_false]
      rw [Row.get_cons_miss a t k2 ha2]
      exact ih
    · have ha1 : (a.1 == k) = false := by simpa using ha
      have hb : (a.1 != k) = true := by simp [bne, ha1]
      simp only [hb, if_true]
      by_cases ha2 : (a.1 == k2) = true
      · rw [Row.get_cons_hit a _ k2 ha2, Row.get_cons_hit a t k2 ha2]
      · have ha3 : (a.1 == k2) = false := by simpa using ha2
        rw [Row.get_cons_miss a _ k2 ha3, Row.get_cons_miss a t k2 ha3]
        exact ih

/-- Erasing one key leaves presence of other keys unchanged. -/
theorem Row.hasKey_erase_ne (r : Row) (k k2 : String)
    (h : (k2 == k) = false) :
    (Row.erase r k).hasKey k2 = r.hasKey k2 := by
  induction r with
  | nil => rfl
  | cons a t ih =>
    rw [Row.erase_cons]
    by_cases ha : (a.1 == k) = true
    · have ha2 : (a.1 == k2) = false := by
        have hx : a.1 = k := by simpa using ha
        rw [beq_eq_false_iff_ne] at h ⊢
        rw [hx]
        exact fun hy => h hy.symm
      have hb : (a.1 != k) = false := by simp [bne, ha]
      simp only [hb, Bool.false_eq_true, if_false]
      rw [Row.hasKey_cons, ha2, ih]
      rfl
    · have ha1 : (a.1 == k) = false := by simpa using ha
      have hb : (a.1 != k) = true := by simp [bne, ha1]
      simp only [hb, if_true]
      rw [Row.hasKey_cons, Row.hasKey_cons, ih]

/-- Presence of other keys in the overwrite branch of an assignment. -/
theorem hasKey_map_upd_ne (r : Row) (k k2 : String) (v : Option String)
    (h : (k2 == k) = false) :
    Row.hasKey (r.map (fun kv => if kv.1 == k then (k, v) else kv)) k2 =
      Row.hasKey r k2 := by
  have hk2a : (k == k2) = false := by
    rw [beq_eq_false_iff_ne] at h ⊢
    exact fun hx => h hx.symm
  induction r with
  | nil => rfl
  | cons a t ih =>
    rw [List.map_cons]
    by_cases ha : (a.1 == k) = true
    · have ha2 : (a.1 == k2) = false := by
        have hx : a.1 = k := by simpa using ha
        rw [hx]
        exact hk2a
      simp only [ha, if_true]
      rw [Row.hasKey_cons, Row.hasKey_cons, ih, ha2, hk2a]
    · have ha1 : (a.1 == k) = false := by simpa using ha
      simp only [ha1, Bool.false_eq_true, if_false]
      rw [Row.hasKey_cons, Row.hasKey_cons, ih]

/-- Presence of other keys in the append branch of an assignment. -/
theorem hasKey_append_ne (r : Row) (k k2 : String) (v : Option String)
    (h : (k2 == k) = false) :
    Row.hasKey (r ++ [(k, v)]) k2 = Row.hasKey r k2 := by
  have hk2a : (k == k2) = false := by
    rw [beq_eq_false_iff_ne] at h ⊢
    exact fun hx => h hx.symm
  induction r with
  | nil =>
    rw [List.nil_append, Row.hasKey_cons, hk2a]
    rfl
  | cons a t ih =>
    rw [List.cons_append, Row.hasKey_cons, Row.hasKey_cons, ih]

/-- Presence of other keys is unchanged by an assignment. -/
theorem Row.hasKey_set_ne (r : Row) (k k2 : String) (v : Option String)
    (h : (k2 == k) = false) :
    (Row.set r k v).hasKey k2 = r.hasKey k2 := by
  unfold Row.set
  by_cases hk : r.hasKey k = true
  · simp only [hk, if_true]
    exact hasKey_map_upd_ne r k k2 v h
  · simp only [hk, if_false]
    exact hasKey_append_ne r k k2 v h

/-- Invariant of the normalization fold: any predicate holding of the
accumulator entries and of every normalized input pair holds of every
entry of the result. -/
theorem normalize_fold_inv (Q : String × Option String → Prop)
    (l : List (String × String)) (acc : Row)
    (hacc : ∀ kv ∈ acc, Q kv)
    (hl : ∀ x ∈ l, Q (pyLower x.1, normVal x.2)) :
    ∀ kv ∈ l.foldl
      (fun acc kv => Row.set acc (pyLower kv.1) (normVal kv.2)) acc, Q kv := by
  induction l generalizing acc with
  | nil => simpa using hacc
  | cons x rest ih =>
    intro kv hkv
    refine ih _ ?_ (fun y hy => hl y (List.mem_cons_of_mem _ hy)) kv hkv
    intro kv2 hkv2
    rcases Row.mem_set acc (pyLower x.1) (normVal x.2) kv2 hkv2 with h1 | h1
    · rw [h1]
      exact hl x (List.mem_cons_self _ _)
    · exact hacc kv2 h1

/-- Claim C8 counterexample: the normalizer lower-cases keys but does not
trim them, and trims values but does not lower-case them; the raw pair
with key space-K and value ABC does not normalize to key k with value
abc as the claim requires. -/
theorem C8_counterexample :
    normalizeRow [(" K", " ABC ")] = [(" k", some "ABC")]
    ∧ (" k", (some "ABC" : Option String)) ≠ ("k", some "abc") := by
  constructor
  · decide
  · decide

/-- Claim C8 amended: every output entry of the normalizer has its key
lower-cased (not trimmed) and its value trimmed (not lower-cased), with
empty-after-trim values replaced by None; and the rename step removes
the legacy columns other value and quarantine, moving their values to
other_value and quarantined. -/
theorem C8_amended_normalizer (raw : List (String × String)) (row : Row) :
    (∀ kv ∈ normalizeRow raw,
      ∃ kv0 ∈ raw, kv.1 = pyLower kv0.1 ∧ kv.2 = normVal kv0.2)
    ∧ (applyRenames row).hasKey "other value" = false
    ∧ (applyRenames row).hasKey "quarantine" = false
    ∧ (row.hasKey "other value" = true →
        (applyRenames row).get "other_value" = row.get "other value")
    ∧ (row.hasKey "quarantine" = true →
        (applyRenames row).get "quarantined" = row.get "quarantine") := by
  refine ⟨?_, ?_, ?_, ?_, ?_⟩
  · intro kv hkv
    refine normalize_fold_inv
      (fun kv => ∃ kv0 ∈ raw, kv.1 = pyLower kv0.1 ∧ kv.2 = normVal kv0.2)
      raw [] (by simp) ?_ kv hkv
    intro x hx
    exact ⟨x, hx, rfl, rfl⟩
  · unfold applyRenames
    by_cases h1 : row.hasKey "other value" = true
    · simp only [h1, if_true]
      by_cases h2 : (((row.set "other_value" (row.get "other value")).erase
          "other value").hasKey "quarantine") = true
      · simp only [h2, if_true]
        rw [Row.hasKey_erase_ne _ _ _ (by decide),
          Row.hasKey_set_ne _ _ _ _ (by decide)]
        exact Row.hasKey_erase_self _ _
      · simp only [h2, if_false]
        exact Row.hasKey_erase_self _ _
    · have h1f : row.hasKey "other value" = false := by simpa using h1
      simp only [h1f, Bool.false_eq_true, if_false]
      by_cases h2 : (row.hasKey "quarantine") = true
      · simp only [h2, if_true]
        rw [Row.hasKey_erase_ne _ _ _ (by decide),
          Row.hasKey_set_ne _ _ _ _ (by decide)]
        exact h1f
      · simp only [h2, if_false]
        exact h1f
  · unfold applyRenames
    by_cases h1 : row.hasKey "other value" = true
    · simp only [h1, if_true]
      by_cases h2 : (((row.set "other_value" (row.get "other value")).erase
          "other value").hasKey "quarantine") = true
      · simp only [h2, if_true]
        exact Row.hasKey_erase_self _ _
      · simp only [h2, if_false]
        simpa using h2
    · have h1f : row.hasKey "other value" = false := by simpa using h1
      simp only [h1f, Bool.false_eq_true, if_false]
      by_cases h2 : (row.hasKey "quarantine") = true
      · simp only [h2, if_true]
        exact Row.hasKey_erase_self _ _
      · simp only [h2, if_false]
        simpa using h2
  · intro h1
    unfold applyRenames
    simp only [h1, if_true]
    have hbase : ((row.set "other_value" (row.get "other value")).erase
        "other value").get "other_value" = row.get "other value" := by
      rw [Row.get_erase_ne _ _ _ (by decide)]
      exact Row.get_set_self _ _ _
    by_cases h2 : (((row.set "other_value" (row.get "other value")).erase
        "other value").hasKey "quarantine") = true
    · simp only [h2, if_true]
      rw [Row.get_erase_ne _ _ _ (by decide),
        Row.get_set_ne _ _ _ _ (by decide)]
      exact hbase
    · simp only [h2, if_false]
      exact hbase
  · intro h1
    unfold applyRenames
    by_cases h0 : row.hasKey "other value" = true
    · simp only [h0, if_true]
      have hq : (((row.set "other_value" (row.get "other value")).erase
          "other value").hasKey "quarantine") = true := by
        rw [Row.hasKey_erase_ne _ _ _ (by decide),
          Row.hasKey_set_ne _ _ _ _ (by decide)]
        exact h1
      simp only [hq, if_true]
      rw [Row.get_erase_ne _ _ _ (by decide), Row.get_set_self,
        Row.get_erase_ne _ _ _ (by decide),
        Row.get_set_ne _ _ _ _ (by decide)]
    · have h0f : row.hasKey "other value" = false := by simpa using h0
      simp only [h0f, Bool.false_eq_true, if_false, h1, if_true]
      rw [Row.get_erase_ne _ _ _ (by decide)]
      exact Row.get_set_self _ _ _

/-- Witness for the amended C8 at a concrete raw row with mixed-case
key and value, a legacy other value column and a quarantine column. -/
theorem C8_amended_normalizer_witness :
    (∀ kv ∈ normalizeRow [(" K", " ABC ")],
      ∃ kv0 ∈ [(" K", " ABC ")], kv.1 = pyLower kv0.1 ∧ kv.2 = normVal kv0.2)
    ∧ (applyRenames [("other value", some "5"), ("quarantine", some "2")]
        ).hasKey "other value" = false
    ∧ (applyRenames [("other value", some "5"), ("quarantine", some "2")]
        ).hasKey "quarantine" = false
    ∧ ((Row.hasKey [("other value", some "5"), ("quarantine", some "2")]
          "other value") = true →
        (applyRenames [("other value", some "5"), ("quarantine", some "2")]
          ).get "other_value" =
        Row.get [("other value", some "5"), ("quarantine", some "2")]
          "other value")
    ∧ ((Row.hasKey [("other value", some "5"), ("quarantine", some "2")]
          "quarantine") = true →
        (applyRenames [("other value", some "5"), ("quarantine", some "2")]
          ).get "quarantined" =
        Row.get [("other value", some "5"), ("quarantine", some "2")]
          "quarantine") := by
  have h1 := C8_amended_normalizer [(" K", " ABC ")]
    [("other value", some "5"), ("quarantine", some "2")]
  exact ⟨h1.1, h1.2.1, h1.2.2.1, h1.2.2.2.1, h1.2.2.2.2⟩

/-- Claim C7: in mode new, when any existing scrape already references
the source filename, load returns the database unchanged and processes
no row. -/
theorem C7_new_mode_skip (dp : String → Option PyDateTime)
    (jl : String → Option JsonObj) (fl : String → Bool)
    (fname : Option String) (dry : Bool) (ranges : List (List Nat))
    (csvRows : List (List (String × String))) (db : DB)
    (h : db.scrapes.any (fun s => s.csv_file == fname) = true) :
    load dp jl fl "new" fname dry ranges csvRows db = (db, 0) := by
  unfold load
  by_cases hd : dry = true
  · simp [hd]
  · have hd2 : dry = false := by simpa using hd
    simp [hd2, h]

/-- Witness for C7: a database with one scrape for the file is returned
unchanged by a new-mode load of the same file. -/
theorem C7_new_mode_skip_witness :
    load (fun _ => none) (fun _ => none) (fun _ => false) "new"
      (some "f.csv") false [] [[("access_time", "2020-04-01")]]
      (DB.mk [] [] []
        [Scrape.mk 0 "p" "u" none (PyDateTime.mk (PyDate.mk 2020 1 1) 0)
          none (some "f.csv") 0] [] [] [] 1) =
      (DB.mk [] [] []
        [Scrape.mk 0 "p" "u" none (PyDateTime.mk (PyDate.mk 2020 1 1) 0)
          none (some "f.csv") 0] [] [] [] 1, 0) :=
  C7_new_mode_skip (fun _ => none) (fun _ => none) (fun _ => false)
    (some "f.csv") false [] [[("access_time", "2020-04-01")]]
    (DB.mk [] [] []
      [Scrape.mk 0 "p" "u" none (PyDateTime.mk (PyDate.mk 2020 1 1) 0)
        none (some "f.csv") 0] [] [] [] 1)
    (by decide)

/-- Membership in the first-group-row simple-attribute loop (groups age
and sex): a truthy simple attribute contributes a fact row under the raw
column name and a registry entry under the synthesized name. -/
theorem simpleAttrsLoop_mem (c : FactCtx) (l : List String) (f : Facts)
    (a : String) (h0 : c.group_row = 0) (ha : a ∈ l)
    (h : simpleAttrsLoop c l = some f) :
    c.stav a (c.row.get a) a ∈ f.stavs
    ∧ ∃ nm w, mk_attr_name c.row ["=" ++ a] true = some (nm, w)
        ∧ (c.dataset, nm) ∈ f.creates := by
  have h0b : (c.group_row == 0) = true := by simp [h0]
  induction l generalizing f with
  | nil => cases ha
  | cons b rest ih =>
    rw [simpleAttrsLoop] at h
    simp only [h0b, if_true, Option.bind_eq_some] at h
    obtain ⟨x, hx, r, hr, heq⟩ := h
    have hf : f = x.app r := by
      simpa using heq.symm
    rcases List.mem_cons.mp ha with hab | harest
    · subst hab
      unfold oneFact at hx
      simp only [Option.bind_eq_some] at hx
      obtain ⟨nw, hmk, hxe⟩ := hx
      have hx2 : x = Facts.mk [(c.dataset, nw.1)]
          [c.stav ((some a).getD nw.1) (c.row.get a) a]
          (if nw.2 then 1 else 0) := by
        simpa using hxe.symm
      constructor
      · rw [hf, hx2]
        simp [Facts.app, FactCtx.stav]
      · refine ⟨nw.1, nw.2, ?_, ?_⟩
        · rw [hmk]
        · rw [hf, hx2]
          simp [Facts.app]
    · have hih := ih r harest hr
      constructor
      · rw [hf]
        simp only [Facts.app, List.mem_append]
        right
        exact hih.1
      · obtain ⟨nm, w, hmk, hcr⟩ := hih.2
        refine ⟨nm, w, hmk, ?_⟩
        rw [hf]
        simp only [Facts.app, List.mem_append]
        right
        exact hcr

/-- Membership in the key loop of group age.sex: a truthy simple
attribute (not sex_-prefixed) contributes a fact row under the raw
column name and a registry entry under the synthesized name. -/
theorem ageSexKeyLoop_mem (c : FactCtx) (l : List String) (f : Facts)
    (a : String) (h0 : c.group_row = 0) (ha : a ∈ l)
    (hsx : pyStartsWith a "sex_" = false) (hsa : a ∈ simple_attrs)
    (h : ageSexKeyLoop c l = some f) :
    c.stav a (c.row.get a) a ∈ f.stavs
    ∧ ∃ nm w, mk_attr_name c.row ["=age", "age_range", "=" ++ a] true =
        some (nm, w) ∧ (c.dataset, nm) ∈ f.creates := by
  have h0b : (c.group_row == 0) = true := by simp [h0]
  induction l generalizing f with
  | nil => cases ha
  | cons b rest ih =>
    rw [ageSexKeyLoop] at h
    simp only [Option.bind_eq_some] at h
    obtain ⟨x, hx, r, hr, heq⟩ := h
    have hf : f = x.app r := by
      simpa using heq.symm
    rcases List.mem_cons.mp ha with hab | harest
    · subst hab
      rw [hsx] at hx
      simp only [Bool.false_eq_true, if_false, hsa, if_true, h0b] at hx
      unfold oneFact at hx
      simp only [Option.bind_eq_some] at hx
      obtain ⟨nw, hmk, hxe⟩ := hx
      have hx2 : x = Facts.mk [(c.dataset, nw.1)]
          [c.stav ((some a).getD nw.1) (c.row.get a) a]
          (if nw.2 then 1 else 0) := by
        simpa using hxe.symm
      constructor
      · rw [hf, hx2]
        simp [Facts.app, FactCtx.stav]
      · refine ⟨nw.1, nw.2, ?_, ?_⟩
        · rw [hmk]
        · rw [hf, hx2]
          simp [Facts.app]
    · have hih := ih r harest hr
      constructor
      · rw [hf]
        simp only [Facts.app, List.mem_append]
        right
        exact hih.1
      · obtain ⟨nm, w, hmk, hcr⟩ := hih.2
        refine ⟨nm, w, hmk, ?_⟩
        rw [hf]
        simp only [Facts.app, List.mem_append]
        right
        exact hcr

/-- A truthy column is among the row keys. -/
theorem mem_keys_of_truthy (r : Row) (k : String) (h : r.truthy k = true) :
    k ∈ r.keys := by
  unfold Row.truthy at h
  cases hg : r.get k with
  | none =>
    rw [hg] at h
    simp at h
  | some s =>
    unfold Row.get at hg
    cases hf : r.find? (fun kv => kv.1 == k) with
    | none =>
      rw [hf] at hg
      cases hg
    | some kv =>
      have hmem := List.mem_of_find?_eq_some hf
      have hkey := List.find?_some hf
      have hke : kv.1 = k := by simpa using hkey
      unfold Row.keys
      rw [← hke]
      exact List.mem_map_of_mem _ hmem

/-- No simple attribute is sex_-prefixed. -/
theorem simple_attrs_not_sex_prefixed :
    ∀ a ∈ simple_attrs, pyStartsWith a "sex_" = false := by decide

/-- Claim C9: on the first row of a group (counter 0) in groups AGE,
AGE_SEX and SEX, every populated simple attribute is stored in the fact
store under the raw column name while the registry entry uses the
synthesized name; and there are inputs on which the two names differ. -/
theorem C9_raw_vs_synthesized (c : FactCtx) (g : GroupType) (attr : String)
    (f : Facts)
    (hg : g = GroupType.age ∨ g = GroupType.age_sex ∨ g = GroupType.sex)
    (h0 : c.group_row = 0) (hsa : attr ∈ simple_attrs)
    (htr : c.row.truthy attr = true)
    (hx : extractFacts c g = some f) :
    (c.stav attr (c.row.get attr) attr ∈ f.stavs
    ∧ ∃ nm w, mk_attr_name c.row (c9parts g attr) true = some (nm, w)
        ∧ (c.dataset, nm) ∈ f.creates)
    ∧ ∃ f2 nm2 w2, extractFacts c9ctx GroupType.age_sex = some f2
        ∧ mk_attr_name c9ctx.row (c9parts GroupType.age_sex "cases") true =
            some (nm2, w2)
        ∧ StavRec.mk c9ctx.scrape_id c9ctx.geounit_id c9ctx.valid_time
            "cases" (c9ctx.row.get "cases") c9ctx.row_no "cases" ∈ f2.stavs
        ∧ (c9ctx.dataset, nm2) ∈ f2.creates ∧ nm2 ≠ "cases" := by
  constructor
  · rcases hg with hg | hg | hg
    · subst hg
      unfold extractFacts at hx
      simp only [Option.bind_eq_some] at hx
      obtain ⟨f1, h1, f2, h2, heq⟩ := hx
      have hf : f = f1.app f2 := by simpa using heq.symm
      have hmem : attr ∈ truthySimple c.row :=
        List.mem_filter.mpr ⟨hsa, htr⟩
      have hm := simpleAttrsLoop_mem c (truthySimple c.row) f2 attr h0 hmem h2
      rw [hf]
      constructor
      · simp only [Facts.app, List.mem_append]
        right
        exact hm.1
      · obtain ⟨nm, w, hmk, hcr⟩ := hm.2
        refine ⟨nm, w, hmk, ?_⟩
        simp only [Facts.app, List.mem_append]
        right
        exact hcr
    · subst hg
      unfold extractFacts at hx
      simp only [Option.bind_eq_some] at hx
      obtain ⟨f1, h1, f2, h2, heq⟩ := hx
      have hf : f = f1.app f2 := by simpa using heq.symm
      have hmem : attr ∈ truthyKeys c.row :=
        List.mem_filter.mpr ⟨mem_keys_of_truthy c.row attr htr, htr⟩
      have hm := ageSexKeyLoop_mem c (truthyKeys c.row) f2 attr h0 hmem
        (simple_attrs_not_sex_prefixed attr hsa) hsa h2
      rw [hf]
      constructor
      · simp only [Facts.app, List.mem_append]
        right
        exact hm.1
      · obtain ⟨nm, w, hmk, hcr⟩ := hm.2
        refine ⟨nm, w, hmk, ?_⟩
        simp only [Facts.app, List.mem_append]
        right
        exact hcr
    · subst hg
      unfold extractFacts at hx
      simp only [Option.bind_eq_some] at hx
      obtain ⟨f1, h1, f2, h2, heq⟩ := hx
      have hf : f = f1.app f2 := by simpa using heq.symm
      have hmem : attr ∈ truthySimple c.row :=
        List.mem_filter.mpr ⟨hsa, htr⟩
      have hm := simpleAttrsLoop_mem c (truthySimple c.row) f2 attr h0 hmem h2
      rw [hf]
      constructor
      · simp only [Facts.app, List.mem_append]
        right
        exact hm.1
      · obtain ⟨nm, w, hmk, hcr⟩ := hm.2
        refine ⟨nm, w, hmk, ?_⟩
        simp only [Facts.app, List.mem_append]
        right
        exact hcr
  · refine ⟨c9facts, "age_0-9_cases", false, ?_, ?_, ?_, ?_, ?_⟩
    · decide
    · decide
    · decide
    · decide
    · decide

/-- Witness for C9 at the concrete age.sex context: cases is stored
under the raw name while the registry entry is age_0-9_cases. -/
theorem C9_raw_vs_synthesized_witness :
    (c9ctx.stav "cases" (c9ctx.row.get "cases") "cases" ∈ c9facts.stavs
    ∧ ∃ nm w, mk_attr_name c9ctx.row (c9parts GroupType.age_sex "cases")
        true = some (nm, w) ∧ (c9ctx.dataset, nm) ∈ c9facts.creates)
    ∧ ∃ f2 nm2 w2, extractFacts c9ctx GroupType.age_sex = some f2
        ∧ mk_attr_name c9ctx.row (c9parts GroupType.age_sex "cases") true =
            some (nm2, w2)
        ∧ StavRec.mk c9ctx.scrape_id c9ctx.geounit_id c9ctx.valid_time
            "cases" (c9ctx.row.get "cases") c9ctx.row_no "cases" ∈ f2.stavs
        ∧ (c9ctx.dataset, nm2) ∈ f2.creates ∧ nm2 ≠ "cases" :=
  C9_raw_vs_synthesized c9ctx GroupType.age_sex "cases" c9facts
    (Or.inr (Or.inl rfl)) rfl (by decide) (by decide) (by decide)
